import Mathlib

/-!
Verification development for the TxT/EPUB-to-PDF converter
(`src/converter.py`).  The EPUB pipeline (`convert_epub_to_pdf`), the
image resolver (`_data_uri_for_src`), the inlining substitutions
(`replace_attr`, `replace_css_url`), the TOC generator
(`generate_toc_html`) and the worker dispatch (`ConversionWorker.run`,
`FileConverter.dragEnterEvent`) are shallowly embedded below.  Text is
modelled as `List Char`; bytes as `Nat` (values below 256); the external
WeasyPrint renderer is an explicit parameter `render : Str → Nat`
returning the page count of a rendered HTML string.
-/

/-- Text, modelled as a list of characters (Python `str`). -/
abbrev Str := List Char

/-- Embed a Lean string literal as a `Str`. -/
def lit (s : String) : Str := s.data

/-- The single-quote character (ASCII 39). -/
def squote : Char := Char.ofNat 39

/-- Python `str.replace(pat, rep)`: replace every non-overlapping
occurrence of `pat` left to right, without rescanning the replacement.
The fuel argument starts at the text length; every step consumes at
least one character, so the fuel never runs out. -/
def strReplaceGo (pat rep : Str) : Nat → Str → Str
  | 0, s => s
  | _ + 1, [] => []
  | fuel + 1, c :: cs =>
    if pat ≠ [] ∧ pat.isPrefixOf (c :: cs) then
      rep ++ strReplaceGo pat rep fuel ((c :: cs).drop pat.length)
    else
      c :: strReplaceGo pat rep fuel cs

/-- Python `str.replace` (see `strReplaceGo`). -/
def strReplace (s pat rep : Str) : Str := strReplaceGo pat rep s.length s

/-- Python `str.lower` restricted to ASCII letters (the only characters
that appear in the suffix checks of the source). -/
def strLower (s : Str) : Str := s.map Char.toLower

/-- Python `str.endswith`. -/
def strEndsWith (s suffixStr : Str) : Bool := suffixStr.isSuffixOf s

/-- Python `str.startswith`. -/
def strStartsWith (s prefixStr : Str) : Bool := prefixStr.isPrefixOf s

/-- Python `str.strip(chars)`: drop leading and trailing characters
belonging to `chars`. -/
def pyStrip (chars : Str) (s : Str) : Str :=
  ((s.dropWhile (fun c => chars.contains c)).reverse.dropWhile
    (fun c => chars.contains c)).reverse

/-- Decimal rendering of an integer, as Python `str(i)` / f-string
interpolation produces it. -/
def intStr (i : Int) : Str := (toString i).data

/-- Decimal rendering of a natural number. -/
def natStr (n : Nat) : Str := (toString n).data

/-- The base64 alphabet used by Python's `base64.b64encode`. -/
def b64Alphabet : Str :=
  lit "ABCDEFGHIJKLMNOPQRSTUVWXYZabcdefghijklmnopqrstuvwxyz0123456789+/"

/-- Character for a six-bit group. -/
def b64Char (n : Nat) : Char := b64Alphabet.getD n 'A'

/-- Index of a character in the base64 alphabet. -/
def b64CharVal (c : Char) : Nat := b64Alphabet.indexOf c

/-- Standard base64 of a byte sequence (Python `base64.b64encode`,
decoded to text): bytes are taken three at a time and emitted as four
sextet characters, with `=` padding on a short final group. -/
def b64encodeBytes : List Nat → Str
  | [] => []
  | [b0] => [b64Char (b0 / 4), b64Char (b0 % 4 * 16), '=', '=']
  | [b0, b1] =>
    [b64Char (b0 / 4), b64Char (b0 % 4 * 16 + b1 / 16), b64Char (b1 % 16 * 4), '=']
  | b0 :: b1 :: b2 :: rest =>
    b64Char (b0 / 4) :: b64Char (b0 % 4 * 16 + b1 / 16) ::
      b64Char (b1 % 16 * 4 + b2 / 64) :: b64Char (b2 % 64) :: b64encodeBytes rest

/-- Standard base64 decoding (Python `base64.b64decode`): four
characters at a time, honouring `=` padding. -/
def b64decodeChars : Str → List Nat
  | c0 :: c1 :: c2 :: c3 :: rest =>
    let s0 := b64CharVal c0
    let s1 := b64CharVal c1
    if c2 = '=' then [s0 * 4 + s1 / 16]
    else
      let s2 := b64CharVal c2
      if c3 = '=' then [s0 * 4 + s1 / 16, s1 % 16 * 16 + s2 / 4]
      else
        (s0 * 4 + s1 / 16) :: (s1 % 16 * 16 + s2 / 4) ::
          (s2 % 4 * 64 + b64CharVal c3) :: b64decodeChars rest
  | _ => []

theorem b64CharVal_b64Char : ∀ n : Fin 64, b64CharVal (b64Char n.1) = n.1 := by decide

theorem b64Char_ne_pad : ∀ n : Fin 64, b64Char n.1 ≠ '=' := by decide

theorem b64CharVal_b64Char' (n : Nat) (h : n < 64) : b64CharVal (b64Char n) = n :=
  b64CharVal_b64Char ⟨n, h⟩

theorem b64Char_ne_pad' (n : Nat) (h : n < 64) : b64Char n ≠ '=' :=
  b64Char_ne_pad ⟨n, h⟩

theorem b64_mid_byte (b0 b1 b2 : Nat) (h1 : b1 < 256) (h2 : b2 < 256) :
    (b0 % 4 * 16 + b1 / 16) % 16 * 16 + (b1 % 16 * 4 + b2 / 64) / 4 = b1 := by
  have e1 : (b0 % 4 * 16 + b1 / 16) % 16 = b1 / 16 % 16 := Nat.mul_add_mod' _ _ _
  have e2 : (b1 % 16 * 4 + b2 / 64) / 4 = b1 % 16 + b2 / 64 / 4 := by
    rw [Nat.mul_comm (b1 % 16) 4]
    exact Nat.mul_add_div (by norm_num) _ _
  rw [e1, e2]
  omega

theorem b64_last_byte (b1 b2 : Nat) (h2 : b2 < 256) :
    (b1 % 16 * 4 + b2 / 64) % 4 * 64 + b2 % 64 = b2 := by
  have e1 : (b1 % 16 * 4 + b2 / 64) % 4 = b2 / 64 % 4 := Nat.mul_add_mod' _ _ _
  rw [e1]
  omega

/-- Round trip: decoding the base64 encoding of a byte sequence gives
back the bytes. -/
theorem b64decode_b64encode :
    ∀ bs : List Nat, (∀ b ∈ bs, b < 256) →
      b64decodeChars (b64encodeBytes bs) = bs
  | [], _ => rfl
  | [b0], h => by
    have hb0 : b0 < 256 := h b0 (by simp)
    simp only [b64encodeBytes, b64decodeChars, if_true,
      b64CharVal_b64Char' (b0 / 4) (by omega),
      b64CharVal_b64Char' (b0 % 4 * 16) (by omega),
      List.cons.injEq, and_true]
    omega
  | [b0, b1], h => by
    have hb0 : b0 < 256 := h b0 (by simp)
    have hb1 : b1 < 256 := h b1 (by simp)
    have h1 := eq_false (b64Char_ne_pad' (b1 % 16 * 4) (by omega))
    simp only [b64encodeBytes, b64decodeChars, h1, if_false, if_true,
      b64CharVal_b64Char' (b0 / 4) (by omega),
      b64CharVal_b64Char' (b0 % 4 * 16 + b1 / 16) (by omega),
      b64CharVal_b64Char' (b1 % 16 * 4) (by omega),
      List.cons.injEq, and_true]
    omega
  | [b0, b1, b2], h => by
    have hb0 : b0 < 256 := h b0 (by simp)
    have hb1 : b1 < 256 := h b1 (by simp)
    have hb2 : b2 < 256 := h b2 (by simp)
    have h1 := eq_false (b64Char_ne_pad' (b1 % 16 * 4 + b2 / 64) (by omega))
    have h2 := eq_false (b64Char_ne_pad' (b2 % 64) (by omega))
    simp only [b64encodeBytes, b64decodeChars, h1, h2, if_false,
      b64CharVal_b64Char' (b0 / 4) (by omega),
      b64CharVal_b64Char' (b0 % 4 * 16 + b1 / 16) (by omega),
      b64CharVal_b64Char' (b1 % 16 * 4 + b2 / 64) (by omega),
      b64CharVal_b64Char' (b2 % 64) (by omega),
      List.cons.injEq, and_true]
    omega
  | b0 :: b1 :: b2 :: b3 :: rest, h => by
    have hb0 : b0 < 256 := h b0 (by simp)
    have hb1 : b1 < 256 := h b1 (by simp)
    have hb2 : b2 < 256 := h b2 (by simp)
    have hrest : ∀ b ∈ b3 :: rest, b < 256 := by
      intro b hb
      refine h b ?_
      simp only [List.mem_cons] at hb ⊢
      tauto
    have ih := b64decode_b64encode (b3 :: rest) hrest
    have h1 := eq_false (b64Char_ne_pad' (b1 % 16 * 4 + b2 / 64) (by omega))
    have h2 := eq_false (b64Char_ne_pad' (b2 % 64) (by omega))
    simp only [b64encodeBytes, b64decodeChars, h1, h2, if_false,
      b64CharVal_b64Char' (b0 / 4) (by omega),
      b64CharVal_b64Char' (b0 % 4 * 16 + b1 / 16) (by omega),
      b64CharVal_b64Char' (b1 % 16 * 4 + b2 / 64) (by omega),
      b64CharVal_b64Char' (b2 % 64) (by omega),
      ih, List.cons.injEq, and_true]
    exact ⟨by omega, b64_mid_byte b0 b1 b2 hb1 hb2, b64_last_byte b1 b2 hb2⟩

/-- An EPUB manifest item as `convert_epub_to_pdf` consumes it:
`id` is the manifest identifier used by `book.spine` /
`get_item_with_id`; `name` is `item.get_name()`; `mediaType` is
`item.media_type`; `declaredImage` stands for
`item.get_type() == ebooklib.ITEM_IMAGE`; `isDocument` / `isStyle`
stand for membership in `get_items_of_type(ITEM_DOCUMENT)` /
`get_items_of_type(ITEM_STYLE)`; `content` is the raw byte content
`item.get_content()`; `text` is that byte content decoded as text,
as produced by `item.get_content().decode('utf-8', 'ignore')`. -/
structure EpubItem where
  id : Str
  name : Str
  mediaType : Str
  declaredImage : Bool
  isDocument : Bool
  isStyle : Bool
  content : List Nat
  text : Str
deriving DecidableEq

/-- A table-of-contents entry (`book.toc`): either an `epub.Link`
(title and href) or a tuple of a section (title, href) together with an
ordered list of children. -/
inductive TocEntry where
  | link (title href : Str)
  | sec (title href : Str) (children : List TocEntry)

/-- The parsed book as `epub.read_epub` exposes it to the converter:
the manifest items (in manifest order), the spine (ordered item
identifiers) and the navigation outline. -/
structure Book where
  items : List EpubItem
  spine : List Str
  toc : List TocEntry

/-- The settings dictionary handed to `convert_epub_to_pdf`. -/
structure ConvSettings where
  page_numbers : Bool
  toc : Bool
  toc_numbers : Bool
  toc_start_page : Nat
deriving DecidableEq

/-- Insertion into a Python `dict` modelled as an association list with
unique keys: assigning to an existing key updates the value in place
(keeping the key's original position); a new key is appended at the
end. -/
def dictInsert {α : Type} (m : List (Str × α)) (k : Str) (v : α) : List (Str × α) :=
  if m.any (fun p => p.1 = k) then
    m.map (fun p => if p.1 = k then (k, v) else p)
  else
    m ++ [(k, v)]

/-- Python `dict` lookup (`k in d` plus `d[k]`). -/
def dictLookup {α : Type} (m : List (Str × α)) (k : Str) : Option α :=
  (m.find? (fun p => p.1 = k)).map (fun p => p.2)

/-- The image index `images_by_path` built at the start of
`convert_epub_to_pdf`: every item whose type is `ITEM_IMAGE` or whose
media type starts with `image/` is stored under its name with
backslashes normalized to forward slashes. -/
def images_by_path (items : List EpubItem) : List (Str × EpubItem) :=
  items.foldl
    (fun m it =>
      if it.declaredImage || (it.mediaType ≠ [] && strStartsWith it.mediaType (lit "image/")) then
        dictInsert m (strReplace it.name (lit "\\") (lit "/")) it
      else m)
    []

/-- Hex digit value of a character, if any. -/
def hexVal (c : Char) : Option Nat :=
  if '0' ≤ c ∧ c ≤ '9' then some (c.toNat - 48)
  else if 'a' ≤ c ∧ c ≤ 'f' then some (c.toNat - 97 + 10)
  else if 'A' ≤ c ∧ c ≤ 'F' then some (c.toNat - 65 + 10)
  else none

/-- `urllib.parse.unquote` on the character level: a percent sign
followed by two hex digits is decoded to the corresponding byte,
invalid escapes are passed through unchanged.  This is exact for ASCII
escapes (the only ones the converter's inputs use); multi-byte UTF-8
escape runs, which Python would decode jointly, are decoded bytewise
here. -/
def pyUnquoteList : Str → Str
  | '%' :: a :: b :: rest =>
    match hexVal a, hexVal b with
    | some x, some y => Char.ofNat (16 * x + y) :: pyUnquoteList rest
    | _, _ => '%' :: pyUnquoteList (a :: b :: rest)
  | c :: rest => c :: pyUnquoteList rest
  | [] => []

/-- Final path segment, as `os.path.basename` computes it for the
forward-slash paths produced by the converter's normalization (the
Windows drive-letter corner of `ntpath.basename` does not arise for
the in-archive paths handled here). -/
def pyBasename (s : Str) : Str := (s.reverse.takeWhile (fun c => c ≠ '/')).reverse

/-- The normalization `_data_uri_for_src` applies to a reference before
lookup: URL-decode, turn backslashes into forward slashes, strip a
`file:///` prefix. -/
def normalizeSrc (src : Str) : Str :=
  let raw := strReplace (pyUnquoteList src) (lit "\\") (lit "/")
  if strStartsWith raw (lit "file:///") then raw.drop 8 else raw

/-- The data URI `_data_uri_for_src` builds for a resolved item:
`data:{media_type};base64,{b64}`. -/
def mkDataUri (it : EpubItem) : Str :=
  lit "data:" ++ it.mediaType ++ lit ";base64," ++ b64encodeBytes it.content

/-- `_data_uri_for_src` from `convert_epub_to_pdf`: skip empty or
already-inlined references, normalize, try an exact lookup in
`images_by_path`, then fall back to comparing final path segments
against every index entry in insertion order, returning the first hit;
`none` models Python `None`. -/
def data_uri_for_src (images : List (Str × EpubItem)) (srcValue : Str) : Option Str :=
  if srcValue = [] || strStartsWith srcValue (lit "data:") then none
  else
    match dictLookup images (normalizeSrc srcValue) with
    | some it => some (mkDataUri it)
    | none =>
      match images.find? (fun p => pyBasename p.1 = pyBasename (normalizeSrc srcValue)) with
      | some p => some (mkDataUri p.2)
      | none => none

/-- The closure `replace_css_url` (an identical copy appears at lines
411 and 459 of `converter.py`): strip blanks and quotes from the
captured group, resolve it, and replace the whole match with
`url("{data_uri}")`, or keep the match unchanged when resolution
fails. -/
def replace_css_url (resolve : Str → Option Str) (whole group1 : Str) : Str :=
  match resolve (pyStrip [' ', '"', squote] group1) with
  | some uri => lit "url(\"" ++ uri ++ lit "\")"
  | none => whole

/-- Largest index `j ≥ 1` of a backslash in `run` (the position the
greedy class of `cssUrlEscMatch` backtracks to). -/
def lastBackslashIdx (run : Str) : Option Nat :=
  match run.reverse.findIdx? (fun c => c = '\\') with
  | some k => if run.length - 1 - k ≥ 1 then some (run.length - 1 - k) else none
  | none => none

/-- Matching step of the pattern the source actually compiles.  The
source passes the raw string `r'url\\(([^)]+)\\)'` to `re.sub`.  The
two `\\` sequences are escaped literal backslashes and the final `)`
closes the capture group, so the regex reads `url` `\` `(` `[^)]+` `\`
`)` — it matches `url`, a literal backslash, then the group: a
nonempty run of non-`)` characters followed by a literal backslash.
No closing parenthesis is matched at all.  With backtracking, the
pattern matches at a position exactly when, after `url` (any case,
`re.IGNORECASE`) and a backslash, the maximal run of non-`)`
characters contains a backslash at some index `j ≥ 1`; the greedy
class gives characters back one at a time, so the largest such `j`
wins.  The whole match is `url\` plus the run up to and including that
backslash, and group 1 is the part after `url\`.  Returns (whole
match, group 1, rest of the text).  Behaviour cross-checked against
CPython `re`. -/
def cssUrlEscMatch : Str → Option (Str × Str × Str)
  | u1 :: r1 :: l1 :: b1 :: rest =>
    if u1.toLower = 'u' ∧ r1.toLower = 'r' ∧ l1.toLower = 'l' ∧ b1 = '\\' then
      let run := rest.takeWhile (fun c => c ≠ ')')
      match lastBackslashIdx run with
      | some j =>
        some (u1 :: r1 :: l1 :: b1 :: run.take (j + 1), run.take (j + 1), rest.drop (j + 1))
      | none => none
    else none
  | _ => none

/-- Left-to-right `re.sub` loop for the pattern of `cssUrlEscMatch`
(source lines 418 and 467).  The fuel starts at the text length and
every step consumes at least one character. -/
def cssUrlEscSubGo (resolve : Str → Option Str) : Nat → Str → Str
  | 0, s => s
  | _ + 1, [] => []
  | fuel + 1, c :: cs =>
    match cssUrlEscMatch (c :: cs) with
    | some (whole, g1, rest) =>
      replace_css_url resolve whole g1 ++ cssUrlEscSubGo resolve fuel rest
    | none => c :: cssUrlEscSubGo resolve fuel cs

/-- The CSS `url(...)` substitution pass exactly as the source performs
it (see `cssUrlEscMatch`). -/
def cssUrlEscSub (resolve : Str → Option Str) (s : Str) : Str :=
  cssUrlEscSubGo resolve s.length s

/-- Modelled from the spec: the substitution the spec describes — and
the comment above source line 418 announces — replaces every CSS
`url(...)` value, i.e. uses the regex `url\(([^)]+)\)` (no literal
backslashes).  Matching step: `url` (any case), `(`, a nonempty run of
non-`)` characters, `)`. -/
def cssUrlSpecMatch : Str → Option (Str × Str × Str)
  | u1 :: r1 :: l1 :: p1 :: rest =>
    if u1.toLower = 'u' ∧ r1.toLower = 'r' ∧ l1.toLower = 'l' ∧ p1 = '(' then
      let run := rest.takeWhile (fun c => c ≠ ')')
      match rest.drop run.length with
      | ')' :: rest2 =>
        if run ≠ [] then
          some (u1 :: r1 :: l1 :: p1 :: (run ++ [')']), run, rest2)
        else none
      | _ => none
    else none
  | _ => none

/-- Modelled from the spec: `re.sub` loop for `cssUrlSpecMatch`. -/
def cssUrlSpecSubGo (resolve : Str → Option Str) : Nat → Str → Str
  | 0, s => s
  | _ + 1, [] => []
  | fuel + 1, c :: cs =>
    match cssUrlSpecMatch (c :: cs) with
    | some (whole, g1, rest) =>
      replace_css_url resolve whole g1 ++ cssUrlSpecSubGo resolve fuel rest
    | none => c :: cssUrlSpecSubGo resolve fuel cs

/-- Modelled from the spec: the CSS `url(...)` substitution the spec
prescribes. -/
def cssUrlSpecSub (resolve : Str → Option Str) (s : Str) : Str :=
  cssUrlSpecSubGo resolve s.length s

/-- Word character for the regex word boundary `\b` (ASCII range). -/
def isWordChar (c : Char) : Bool := c.isAlphanum || c = '_'

/-- Case-insensitive literal match: `pat` is given in lowercase;
returns the consumed original-case text and the remainder. -/
def matchCI : Str → Str → Option (Str × Str)
  | [], s => some ([], s)
  | _ :: _, [] => none
  | p :: ps, c :: cs =>
    if c.toLower = p then (matchCI ps cs).map (fun q => (c :: q.1, q.2))
    else none

/-- The closure `replace_attr` (source lines 442-450): resolve the
quoted attribute value; on success replace the whole match with
`{attr}={quote}{data_uri}{quote}` (whitespace around `=` is dropped),
otherwise keep the match unchanged. -/
def replace_attr (resolve : Str → Option Str) (whole attrName : Str) (quote : Char)
    (srcValue : Str) : Str :=
  match resolve srcValue with
  | some uri => attrName ++ ['='] ++ [quote] ++ uri ++ [quote]
  | none => whole

/-- After an attribute name has been consumed: parse `\s*=\s*`, an
opening quote (single or double), a nonempty greedy run of characters
that are neither quote kind, and a closing quote equal to the opening
one (the backreference `\2`).  Returns (text between name and value,
quote, value, rest). -/
def attrMatchAfterName (rest1 : Str) : Option (Str × Char × Str × Str) :=
  let sp1 := rest1.takeWhile Char.isWhitespace
  match rest1.drop sp1.length with
  | '=' :: r3 =>
    let sp2 := r3.takeWhile Char.isWhitespace
    match r3.drop sp2.length with
    | q :: r5 =>
      if q = '"' ∨ q = squote then
        let run := r5.takeWhile (fun c => c ≠ '"' ∧ c ≠ squote)
        match r5.drop run.length with
        | q2 :: r7 =>
          if q2 = q ∧ run ≠ [] then some (sp1 ++ '=' :: sp2, q, run, r7) else none
        | [] => none
      else none
    | [] => none
  | _ => none

/-- One attempt to match the attribute pattern
`(\b(?:src|href|xlink:href)\b)\s*=\s*(['"])([^'"]+)\2` (source line
453, `re.IGNORECASE`) at the current position: the position must sit at
a word boundary (`prevW` says whether the previous character was a word
character), one of the three attribute names must match
case-insensitively and end at a word boundary, followed by the value
part.  Returns the replacement `replace_attr` produces for the match
together with the rest of the text, or `none` when no match starts
here. -/
def attrMatchAt (resolve : Str → Option Str) (prevW : Bool) (l : Str) :
    Option (Str × Str) :=
  if prevW then none
  else
    (([lit "src", lit "href", lit "xlink:href"].firstM
      (fun pat =>
        match matchCI pat l with
        | some (m, rest1) =>
          if (rest1.head?.map isWordChar).getD false then none
          else
            match attrMatchAfterName rest1 with
            | some (mid, q, v, r) =>
              some (replace_attr resolve (m ++ mid ++ [q] ++ v ++ [q]) m q v, r)
            | none => none
        | none => none)))

/-- Left-to-right `re.sub` loop for the attribute pattern (source lines
452-457): at each position either substitute a match (continuing after
it; a match always ends in a quote, a non-word character) or move one
character forward.  The fuel starts at the text length. -/
def attrSubGo (resolve : Str → Option Str) : Nat → Bool → Str → Str
  | 0, _, s => s
  | _ + 1, _, [] => []
  | fuel + 1, prevW, c :: cs =>
    match attrMatchAt resolve prevW (c :: cs) with
    | some (replaced, rest) => replaced ++ attrSubGo resolve fuel false rest
    | none => c :: attrSubGo resolve fuel (isWordChar c) cs

/-- The `src`/`href`/`xlink:href` attribute inlining pass (source lines
452-457). -/
def attrSub (resolve : Str → Option Str) (s : Str) : Str :=
  attrSubGo resolve s.length false s

/-- Python `html.escape` with its default `quote=True`: ampersands
first, then angle brackets, then both quote characters. -/
def htmlEscape (s : Str) : Str :=
  strReplace
    (strReplace
      (strReplace
        (strReplace (strReplace s (lit "&") (lit "&amp;")) (lit "<") (lit "&lt;"))
        (lit ">") (lit "&gt;"))
      (lit "\"") (lit "&quot;"))
    [squote] (lit "&#x27;")

/-- Page-number text for one TOC entry (source lines 312-314): the
fragment suffix is stripped from the href, and a number is printed only
when `toc_numbers` is set, a page map was passed (the dry run passes
none) and the stripped href is a key of it. -/
def toc_page_num (tocNumbers : Bool) (pm : Option (List (Str × Int))) (href : Str) : Str :=
  let baseHref := href.takeWhile (fun c => c ≠ '#')
  if tocNumbers then
    match pm with
    | some m =>
      match dictLookup m baseHref with
      | some n => intStr n
      | none => []
    | none => []
  else []

/-- One `<li>` line of the generated TOC (the f-string at source lines
317 and 331). -/
def toc_li (tocNumbers : Bool) (pm : Option (List (Str × Int))) (title href : Str)
    (level : Nat) : Str :=
  lit "<li style=\x27padding-left: " ++ natStr (level * 20) ++
    lit "px\x27><a href=\x27#\x27><span>" ++ htmlEscape title ++
    lit "</span> <span class=\x27page\x27>" ++ toc_page_num tocNumbers pm href ++
    lit "</span></a></li>"

mutual

/-- `process_toc_item` (source lines 299-332): a Link renders one list
item; a tuple renders the section's list item followed by its children
one indent level deeper. -/
def process_toc_item (tocNumbers : Bool) (pm : Option (List (Str × Int))) :
    TocEntry → Nat → Str
  | TocEntry.link title href, level => toc_li tocNumbers pm title href level
  | TocEntry.sec title href children, level =>
    toc_li tocNumbers pm title href level ++
      process_toc_list tocNumbers pm children (level + 1)

/-- The children loop of `process_toc_item`. -/
def process_toc_list (tocNumbers : Bool) (pm : Option (List (Str × Int))) :
    List TocEntry → Nat → Str
  | [], _ => []
  | e :: es, level =>
    process_toc_item tocNumbers pm e level ++ process_toc_list tocNumbers pm es level

end

/-- The fixed header of the generated TOC document (source line 297). -/
def tocHeader : Str :=
  lit "<html><head><style>h1 \x7b text-align: center; \x7d ul \x7b list-style-type: none; padding: 0; \x7d li \x7b margin-bottom: 5px; border-bottom: 1px dotted #ccc; \x7d a \x7b text-decoration: none; color: black; display: flex; justify-content: space-between; \x7d .page \x7b font-weight: bold; \x7d</style></head><body><h1>Table of Contents</h1><ul>"

/-- `generate_toc_html` (source lines 296-338). -/
def generate_toc_html (book : Book) (pm : Option (List (Str × Int)))
    (tocNumbers : Bool) : Str :=
  tocHeader ++ process_toc_list tocNumbers pm book.toc 0 ++ lit "</ul></body></html>"

/-- The start-page CSS injected into both TOC renders when page numbers
are enabled (source lines 349-355 and 490-494). -/
def tocStartCss (s : ConvSettings) : Str :=
  if s.page_numbers then
    lit "<style>@page \x7b @bottom-center \x7b content: counter(page); \x7d \x7d body \x7b counter-reset: page " ++
      intStr ((s.toc_start_page : Int) - 1) ++ lit "; \x7d</style>"
  else []

/-- `toc_html.replace("</style>", f"</style>{toc_css}")`. -/
def injectTocCss (s : ConvSettings) (html : Str) : Str :=
  strReplace html (lit "</style>") (lit "</style>" ++ tocStartCss s)

/-- The warning logged when the final TOC length differs from the
estimate (source line 501). -/
def tocWarningMsg (est real : Nat) : Str :=
  lit "TOC size changed from " ++ natStr est ++ lit " to " ++ natStr real ++
    lit ". Page numbers might be slightly off."

/-- `book.get_item_with_id`. -/
def get_item_with_id (book : Book) (i : Str) : Option EpubItem :=
  book.items.find? (fun it => it.id = i)

/-- `items_to_process` (source lines 289-293): the spine items (missing
identifiers stay as `none` and are skipped later), followed by every
document item whose name is not among the spine item names. -/
def items_to_process (book : Book) : List (Option EpubItem) :=
  let spineItems := book.spine.map (get_item_with_id book)
  let spineHrefs := (spineItems.filterMap id).map (fun it => it.name)
  spineItems ++
    ((book.items.filter (fun it => it.isDocument)).filter
      (fun it => !(spineHrefs.contains it.name))).map some

/-- What the chapter loop (source lines 425-481) does for one rendered
chapter: the name, the value recorded in `chapter_page_map`
(`current_page + 1`), the counter-reset value interpolated into the
chapter CSS (only when page numbers are on), the chapter HTML string
handed to the renderer, and the renderer's page count. -/
structure ChapterTrace where
  name : Str
  startPage : Int
  resetValue : Option Int
  htmlStr : Str
  pageCount : Nat
deriving DecidableEq

/-- The self-contained HTML document built for one chapter (source
lines 440-474): the chapter text with attribute and CSS-url inlining
applied, wrapped with the shared styles and, when page numbers are on,
the `counter-reset` directive carrying the running page counter. -/
def chapter_html (resolve : Str → Option Str) (styles : Str) (pn : Bool)
    (it : EpubItem) (cur : Int) : Str :=
  let content := cssUrlEscSub resolve (attrSub resolve it.text)
  let resetCss :=
    if pn then lit "body \x7b counter-reset: page " ++ intStr cur ++ lit "; \x7d"
    else []
  lit "<html><head><style>" ++ styles ++ lit " " ++ resetCss ++
    lit "</style></head><body>" ++ content ++ lit "</body></html>"

/-- One iteration of the chapter loop for a present item at running
page counter `cur`: the map entry is `cur + 1`, and the chapter HTML is
rendered once. -/
def chapter_trace (render : Str → Nat) (resolve : Str → Option Str) (styles : Str)
    (pn : Bool) (it : EpubItem) (cur : Int) : ChapterTrace :=
  { name := it.name, startPage := cur + 1,
    resetValue := if pn then some cur else none,
    htmlStr := chapter_html resolve styles pn it cur,
    pageCount := render (chapter_html resolve styles pn it cur) }

/-- The chapter loop of `convert_epub_to_pdf` (source lines 425-481):
skip missing items; otherwise record and render the chapter, and
continue with the running page counter advanced by the rendered page
count. -/
def process_items (render : Str → Nat) (resolve : Str → Option Str) (styles : Str)
    (pn : Bool) : List (Option EpubItem) → Int → List ChapterTrace
  | [], _ => []
  | none :: rest, cur => process_items render resolve styles pn rest cur
  | some it :: rest, cur =>
    chapter_trace render resolve styles pn it cur ::
      process_items render resolve styles pn rest
        (cur + ((chapter_trace render resolve styles pn it cur).pageCount : Int))

/-- `chapter_page_map`: the dict written one entry per rendered chapter
(`chapter_page_map[doc_item.get_name()] = current_page + 1`). -/
def chapter_page_map (ts : List ChapterTrace) : List (Str × Int) :=
  ts.foldl (fun m t => dictInsert m t.name t.startPage) []

/-- The image resolver of a conversion job. -/
def resolver_of (book : Book) : Str → Option Str :=
  data_uri_for_src (images_by_path book.items)

/-- The shared stylesheet (source lines 406-422): concatenate all style
items, run the CSS url substitution over the result, then append the
footer page-number rule when enabled. -/
def styles_of (resolve : Str → Option Str) (book : Book) (pn : Bool) : Str :=
  let s0 := (book.items.filter (fun it => it.isStyle)).foldl (fun acc it => acc ++ it.text) []
  let s1 := cssUrlEscSub resolve s0
  if pn then
    s1 ++ lit " @page \x7b @bottom-center \x7b content: counter(page); \x7d \x7d "
  else s1

/-- The dry-run TOC HTML (source lines 344-358). -/
def dummy_toc_html (book : Book) (s : ConvSettings) : Str :=
  injectTocCss s (generate_toc_html book none s.toc_numbers)

/-- `toc_page_count`: the estimated TOC length, 0 when the TOC is
disabled (source lines 340-360). -/
def toc_estimate (render : Str → Nat) (book : Book) (s : ConvSettings) : Nat :=
  if s.toc then render (dummy_toc_html book s) else 0

/-- The chapter traces of a conversion run, seeded with
`current_page = toc_page_count + start_page - 1` (source line 370). -/
def traces_of (render : Str → Nat) (book : Book) (s : ConvSettings) : List ChapterTrace :=
  process_items render (resolver_of book)
    (styles_of (resolver_of book) book s.page_numbers) s.page_numbers
    (items_to_process book)
    ((toc_estimate render book s : Int) + (s.toc_start_page : Int) - 1)

/-- The final TOC HTML, generated with the populated chapter page map
(source lines 485-497). -/
def real_toc_html (render : Str → Nat) (book : Book) (s : ConvSettings) : Str :=
  injectTocCss s (generate_toc_html book (some (chapter_page_map (traces_of render book s))) s.toc_numbers)

/-- Observable outcome of one `convert_epub_to_pdf` run: the TOC
estimate, the chapter traces, the chapter page map, every HTML string
passed to the renderer in call order, the warnings logged, and the
total page count written (`none` when the run raises — with no chapter
documents and no TOC, `documents[0]` at source line 516 raises
`IndexError` before anything is written). -/
structure ConvResult where
  tocEstimate : Nat
  traces : List ChapterTrace
  pageMap : List (Str × Int)
  renderedHtmls : List Str
  warnings : List Str
  output : Option Nat
deriving DecidableEq

/-- `convert_epub_to_pdf` (source lines 272-519), as a function of the
parsed book, the settings and the external renderer. -/
def convert_epub_to_pdf (render : Str → Nat) (book : Book) (s : ConvSettings) : ConvResult :=
  let est := toc_estimate render book s
  let ts := traces_of render book s
  let pm := chapter_page_map ts
  if s.toc then
    let realHtml := real_toc_html render book s
    let realPages := render realHtml
    { tocEstimate := est, traces := ts, pageMap := pm,
      renderedHtmls := dummy_toc_html book s :: (ts.map (fun t => t.htmlStr) ++ [realHtml]),
      warnings := if realPages ≠ est then [tocWarningMsg est realPages] else [],
      output := some (realPages + (ts.map (fun t => t.pageCount)).sum) }
  else
    { tocEstimate := est, traces := ts, pageMap := pm,
      renderedHtmls := ts.map (fun t => t.htmlStr),
      warnings := [],
      output := match ts with
        | [] => none
        | _ => some ((ts.map (fun t => t.pageCount)).sum) }

/-- Modelled from the spec: the page-counter semantics of the external
renderer (WeasyPrint and CSS `counter(page)` live outside `src/`).
Per the spec's page-numbering contract (section 4.3 and the
`toc_start_page=5` scenario), a document whose body carries
`counter-reset: page r` prints the footer numbers r+1, ..., r+n on its
n pages. -/
def printed_page_numbers (reset : Int) (pages : Nat) : List Int :=
  (List.range pages).map (fun k => reset + 1 + (k : Int))

/-- The drag-and-drop suffix filter of `FileConverter.dragEnterEvent`
(source line 200): case-insensitive via `file_path.lower()`. -/
def dragAccepts (path : Str) : Bool :=
  strEndsWith (strLower path) (lit ".epub") || strEndsWith (strLower path) (lit ".txt")

/-- Observable outcome of `ConversionWorker.run`: which converter ran,
whether an output file was written, and which terminal signal was
emitted. -/
structure WorkerOutcome where
  ranTxt : Bool
  ranEpub : Bool
  wroteOutput : Bool
  finishedSignal : Option Str
  errorSignal : Bool
deriving DecidableEq

/-- `ConversionWorker.run` (source lines 554-565): dispatch on the
case-sensitive suffix of the input path; a conversion that raises is
caught and reported through the `error` signal; when neither suffix
matches, nothing runs and the `finished` signal is still emitted with
the output path.  `txtRaises` / `epubRaises` say whether the respective
conversion call would raise. -/
def ConversionWorker_run (txtRaises epubRaises : Bool) (inputPath outputPath : Str) :
    WorkerOutcome :=
  if strEndsWith inputPath (lit ".txt") then
    if txtRaises then
      { ranTxt := true, ranEpub := false, wroteOutput := false,
        finishedSignal := none, errorSignal := true }
    else
      { ranTxt := true, ranEpub := false, wroteOutput := true,
        finishedSignal := some outputPath, errorSignal := false }
  else if strEndsWith inputPath (lit ".epub") then
    if epubRaises then
      { ranTxt := false, ranEpub := true, wroteOutput := false,
        finishedSignal := none, errorSignal := true }
    else
      { ranTxt := false, ranEpub := true, wroteOutput := true,
        finishedSignal := some outputPath, errorSignal := false }
  else
    { ranTxt := false, ranEpub := false, wroteOutput := false,
      finishedSignal := some outputPath, errorSignal := false }

/-- Test image: `a/x.png`, one byte `0`. -/
def imgA : EpubItem :=
  { id := lit "imgA", name := lit "a/x.png", mediaType := lit "image/png",
    declaredImage := true, isDocument := false, isStyle := false,
    content := [0], text := [] }

/-- Test image with the same filename under another directory:
`b/x.png`, one byte `1`. -/
def imgB : EpubItem :=
  { id := lit "imgB", name := lit "b/x.png", mediaType := lit "image/png",
    declaredImage := true, isDocument := false, isStyle := false,
    content := [1], text := [] }

/-- Test image `cover.jpg`. -/
def coverItem : EpubItem :=
  { id := lit "cov", name := lit "cover.jpg", mediaType := lit "image/jpeg",
    declaredImage := true, isDocument := false, isStyle := false,
    content := [77, 1, 2], text := [] }

/-- Test chapter document. -/
def chapterItem : EpubItem :=
  { id := lit "c1", name := lit "ch1.xhtml", mediaType := lit "application/xhtml+xml",
    declaredImage := false, isDocument := true, isStyle := false,
    content := [], text := lit "hello" }

/-- Test book: one chapter in the spine, one TOC link to it. -/
def book1 : Book :=
  { items := [chapterItem], spine := [lit "c1"],
    toc := [TocEntry.link (lit "Chapter 1") (lit "ch1.xhtml")] }

/-- Test book with no document items at all. -/
def bookEmpty : Book := { items := [], spine := [], toc := [] }

/-- C8 claim, and the `toc_start_page=5` scenario of the spec:
`toc_start_page=5`, `toc=false`, `page_numbers=true`, one chapter that
renders to 3 pages.  The chapter page map assigns the chapter page 5,
the chapter's counter-reset value is 4, and by the page-counter
semantics the printed footer numbers are 5, 6, 7. -/
theorem toc_start_five_scenario :
    (convert_epub_to_pdf (fun _ => 3) book1
        { page_numbers := true, toc := false, toc_numbers := false,
          toc_start_page := 5 }).pageMap = [(lit "ch1.xhtml", (5 : Int))] ∧
    ((convert_epub_to_pdf (fun _ => 3) book1
        { page_numbers := true, toc := false, toc_numbers := false,
          toc_start_page := 5 }).traces.map (fun t => t.resetValue)) = [some (4 : Int)] ∧
    printed_page_numbers 4 3 = [5, 6, 7] := by
  refine ⟨by decide, by decide, by decide⟩

/-- C9 claim: the pipeline is a deterministic function of the parsed
input and the settings (given the fixed external renderer): two runs on
equal inputs agree on the whole result, in particular on the
per-chapter page counts, the TOC estimate, the chapter processing
order, and on every asset resolution. -/
theorem pipeline_deterministic (render : Str → Nat) (b1 b2 : Book)
    (s1 s2 : ConvSettings) (src : Str) (hb : b1 = b2) (hs : s1 = s2) :
    convert_epub_to_pdf render b1 s1 = convert_epub_to_pdf render b2 s2 ∧
    (traces_of render b1 s1).map (fun t => t.pageCount) =
      (traces_of render b2 s2).map (fun t => t.pageCount) ∧
    toc_estimate render b1 s1 = toc_estimate render b2 s2 ∧
    (traces_of render b1 s1).map (fun t => t.name) =
      (traces_of render b2 s2).map (fun t => t.name) ∧
    data_uri_for_src (images_by_path b1.items) src =
      data_uri_for_src (images_by_path b2.items) src := by
  subst hb
  subst hs
  exact ⟨rfl, rfl, rfl, rfl, rfl⟩

/-- Witness for `pipeline_deterministic` at a concrete book, settings
and reference. -/
theorem pipeline_deterministic_witness :
    convert_epub_to_pdf (fun _ => 3) book1
        { page_numbers := true, toc := true, toc_numbers := true, toc_start_page := 1 } =
      convert_epub_to_pdf (fun _ => 3) book1
        { page_numbers := true, toc := true, toc_numbers := true, toc_start_page := 1 } ∧
    (traces_of (fun _ => 3) book1
        { page_numbers := true, toc := true, toc_numbers := true, toc_start_page := 1 }).map
        (fun t => t.pageCount) =
      (traces_of (fun _ => 3) book1
        { page_numbers := true, toc := true, toc_numbers := true, toc_start_page := 1 }).map
        (fun t => t.pageCount) ∧
    toc_estimate (fun _ => 3) book1
        { page_numbers := true, toc := true, toc_numbers := true, toc_start_page := 1 } =
      toc_estimate (fun _ => 3) book1
        { page_numbers := true, toc := true, toc_numbers := true, toc_start_page := 1 } ∧
    (traces_of (fun _ => 3) book1
        { page_numbers := true, toc := true, toc_numbers := true, toc_start_page := 1 }).map
        (fun t => t.name) =
      (traces_of (fun _ => 3) book1
        { page_numbers := true, toc := true, toc_numbers := true, toc_start_page := 1 }).map
        (fun t => t.name) ∧
    data_uri_for_src (images_by_path book1.items) (lit "x.png") =
      data_uri_for_src (images_by_path book1.items) (lit "x.png") :=
  pipeline_deterministic (fun _ => 3) book1 book1
    { page_numbers := true, toc := true, toc_numbers := true, toc_start_page := 1 }
    { page_numbers := true, toc := true, toc_numbers := true, toc_start_page := 1 }
    (lit "x.png") rfl rfl

/-- C10 claim: a path accepted by the case-insensitive drag-and-drop
filter whose suffix is not case-sensitively `.txt` or `.epub` makes
`ConversionWorker.run` dispatch to neither converter, write nothing,
and still emit the `finished` signal with the output path. -/
theorem worker_case_mismatch_still_finishes (txtRaises epubRaises : Bool)
    (inp out : Str)
    (hacc : dragAccepts inp = true)
    (ht : strEndsWith inp (lit ".txt") = false)
    (he : strEndsWith inp (lit ".epub") = false) :
    ConversionWorker_run txtRaises epubRaises inp out =
      { ranTxt := false, ranEpub := false, wroteOutput := false,
        finishedSignal := some out, errorSignal := false } := by
  simp only [ConversionWorker_run, ht, he, Bool.false_eq_true, if_false]

/-- Witness for `worker_case_mismatch_still_finishes`: the path
`book.EPUB`. -/
theorem worker_case_mismatch_still_finishes_witness :
    dragAccepts (lit "book.EPUB") = true ∧
    ConversionWorker_run true true (lit "book.EPUB") (lit "book.pdf") =
      { ranTxt := false, ranEpub := false, wroteOutput := false,
        finishedSignal := some (lit "book.pdf"), errorSignal := false } :=
  ⟨by decide,
    worker_case_mismatch_still_finishes true true (lit "book.EPUB") (lit "book.pdf")
      (by decide) (by decide) (by decide)⟩

/-- C4 counterexample: with entries `a/x.png` (inserted first) and
`b/x.png` (inserted last) holding different bytes, the reference
`x.png` misses the exact lookup and the filename fallback returns the
first-inserted entry, not the last-seen one — and the two data URIs
differ, so the last-seen-wins reading is refuted. -/
theorem filename_fallback_counterexample :
    (images_by_path [imgA, imgB]).map (fun p => p.2) = [imgA, imgB] ∧
    dictLookup (images_by_path [imgA, imgB]) (normalizeSrc (lit "x.png")) = none ∧
    data_uri_for_src (images_by_path [imgA, imgB]) (lit "x.png") = some (mkDataUri imgA) ∧
    data_uri_for_src (images_by_path [imgA, imgB]) (lit "x.png") ≠ some (mkDataUri imgB) := by
  refine ⟨by decide, by decide, by decide, by decide⟩

/-- C4 amended: when the exact lookup fails, the filename-only fallback
returns the data URI of the first index entry, in insertion order,
whose final path segment equals the reference's final path segment
(first-seen wins on duplicate filenames). -/
theorem filename_fallback_first_match (images : List (Str × EpubItem))
    (src p : Str) (it : EpubItem)
    (h1 : src ≠ [])
    (h2 : strStartsWith src (lit "data:") = false)
    (hexact : dictLookup images (normalizeSrc src) = none)
    (hfb : images.find?
        (fun q => pyBasename q.1 = pyBasename (normalizeSrc src)) = some (p, it)) :
    data_uri_for_src images src = some (mkDataUri it) := by
  have hg : (decide (src = []) || strStartsWith src (lit "data:")) = false := by
    rw [decide_eq_false h1, h2]
    rfl
  simp only [data_uri_for_src, hg, Bool.false_eq_true, if_false, hexact, hfb]

/-- Witness for `filename_fallback_first_match`. -/
theorem filename_fallback_first_match_witness :
    data_uri_for_src (images_by_path [imgA, imgB]) (lit "x.png") = some (mkDataUri imgA) :=
  filename_fallback_first_match (images_by_path [imgA, imgB]) (lit "x.png")
    (lit "a/x.png") imgA (by decide) (by decide) (by decide) (by decide)

/-- C5 claim: a reference matched by no index entry — neither by exact
normalized path nor by the filename fallback — resolves to `None`, and
`replace_attr` then returns the whole match (`match.group(0)`)
unchanged, so `re.sub` copies the original reference text verbatim
into the output markup. -/
theorem unresolved_reference_left_verbatim (images : List (Str × EpubItem))
    (src whole attrName : Str) (quote : Char)
    (hexact : dictLookup images (normalizeSrc src) = none)
    (hfb : images.find?
        (fun q => pyBasename q.1 = pyBasename (normalizeSrc src)) = none) :
    data_uri_for_src images src = none ∧
    replace_attr (data_uri_for_src images) whole attrName quote src = whole := by
  have hnone : data_uri_for_src images src = none := by
    simp only [data_uri_for_src, hexact, hfb]
    split
    · rfl
    · rfl
  exact ⟨hnone, by simp only [replace_attr, hnone]⟩

/-- Witness for `unresolved_reference_left_verbatim`: the reference
`missing.png` against an index holding only `a/x.png`. -/
theorem unresolved_reference_left_verbatim_witness :
    data_uri_for_src (images_by_path [imgA]) (lit "missing.png") = none ∧
    replace_attr (data_uri_for_src (images_by_path [imgA]))
      (lit "src=\"missing.png\"") (lit "src") '"' (lit "missing.png") =
      lit "src=\"missing.png\"" :=
  unresolved_reference_left_verbatim (images_by_path [imgA]) (lit "missing.png")
    (lit "src=\"missing.png\"") (lit "src") '"' (by decide) (by decide)

/-- The pattern the source compiles for CSS urls cannot match a text
without a backslash: its fifth regex token is a literal backslash. -/
theorem cssUrlEscMatch_none : ∀ (l : Str), '\\' ∉ l → cssUrlEscMatch l = none
  | [], _ => rfl
  | [_], _ => rfl
  | [_, _], _ => rfl
  | [_, _, _], _ => rfl
  | u1 :: r1 :: l1 :: b1 :: rest, h => by
    have hb : b1 ≠ '\\' := by
      intro he
      apply h
      rw [← he]
      simp
    simp only [cssUrlEscMatch]
    rw [if_neg (fun hc => hb hc.2.2.2)]

/-- On a backslash-free text the CSS url substitution loop is the
identity, whatever the resolver resolves. -/
theorem cssUrlEscSubGo_id (resolve : Str → Option Str) :
    ∀ (fuel : Nat) (s : Str), '\\' ∉ s → cssUrlEscSubGo resolve fuel s = s
  | 0, _, _ => rfl
  | _ + 1, [], _ => rfl
  | fuel + 1, c :: cs, h => by
    have hm := cssUrlEscMatch_none (c :: cs) h
    simp only [cssUrlEscSubGo, hm]
    exact congrArg (fun x => c :: x)
      (cssUrlEscSubGo_id resolve fuel cs (fun hc => h (List.mem_cons_of_mem c hc)))

/-- The CSS url substitution the source performs leaves every
backslash-free text — in particular every ordinary stylesheet or
chapter markup — completely unchanged. -/
theorem css_url_sub_id_of_no_backslash (resolve : Str → Option Str) (s : Str)
    (h : '\\' ∉ s) : cssUrlEscSub resolve s = s :=
  cssUrlEscSubGo_id resolve s.length s h

/-- A stylesheet line referencing `cover.jpg`. -/
def cssFixture : Str := lit "body \x7b background-image: url(cover.jpg); \x7d"

/-- C2 claim, refuted by the code: the resolver does resolve
`cover.jpg`, yet the substitution the source performs (whose pattern
demands literal backslashes, see `cssUrlEscMatch`) leaves the
stylesheet unchanged, while the substitution the spec prescribes
(`cssUrlSpecSub`) would inline the data URI. -/
theorem css_url_inlining_never_fires :
    data_uri_for_src (images_by_path [coverItem]) (lit "cover.jpg") =
      some (mkDataUri coverItem) ∧
    cssUrlEscSub (data_uri_for_src (images_by_path [coverItem])) cssFixture = cssFixture ∧
    cssUrlSpecSub (data_uri_for_src (images_by_path [coverItem])) cssFixture =
      lit "body \x7b background-image: url(\"" ++ mkDataUri coverItem ++ lit "\"); \x7d" := by
  refine ⟨by decide, css_url_sub_id_of_no_backslash _ _ (by decide), by decide⟩

/-- C3 claim: a non-empty, non-`data:` reference that matches an index
entry — exactly, after URL-decoding, backslash normalization and
`file:///` stripping, or through the basename fallback — resolves to
precisely that matched entry's data URI: `data:` + that entry's
declared media type + `;base64,` + the base64 encoding of that entry's
bytes, whose decoding gives back exactly that entry's bytes. -/
theorem matching_reference_resolves_to_entry (images : List (Str × EpubItem))
    (src : Str) (it : EpubItem)
    (h1 : src ≠ [])
    (h2 : strStartsWith src (lit "data:") = false)
    (hmatch : dictLookup images (normalizeSrc src) = some it ∨
      (dictLookup images (normalizeSrc src) = none ∧
        ∃ p, images.find?
          (fun q => pyBasename q.1 = pyBasename (normalizeSrc src)) = some (p, it)))
    (hbytes : ∀ b ∈ it.content, b < 256) :
    data_uri_for_src images src =
      some ((lit "data:" ++ it.mediaType) ++
        (lit ";base64," ++ b64encodeBytes it.content)) ∧
    b64decodeChars (b64encodeBytes it.content) = it.content := by
  have hg : (decide (src = []) || strStartsWith src (lit "data:")) = false := by
    rw [decide_eq_false h1, h2]
    rfl
  refine ⟨?_, b64decode_b64encode it.content hbytes⟩
  rcases hmatch with hexact | ⟨hnone, p, hfind⟩
  · simp only [data_uri_for_src, hg, Bool.false_eq_true, if_false, hexact, mkDataUri,
      List.append_assoc]
  · simp only [data_uri_for_src, hg, Bool.false_eq_true, if_false, hnone, hfind, mkDataUri,
      List.append_assoc]

/-- Witness for `matching_reference_resolves_to_entry`: the
percent-encoded, `file:///`-prefixed reference `file:///a%2Fx.png`,
which the normalization maps onto the index entry `a/x.png` (`imgA`),
resolves to `imgA`'s own data URI. -/
theorem matching_reference_resolves_to_entry_witness :
    data_uri_for_src (images_by_path [imgA, imgB]) (lit "file:///a%2Fx.png") =
      some ((lit "data:" ++ imgA.mediaType) ++
        (lit ";base64," ++ b64encodeBytes imgA.content)) ∧
    b64decodeChars (b64encodeBytes imgA.content) = imgA.content :=
  matching_reference_resolves_to_entry (images_by_path [imgA, imgB])
    (lit "file:///a%2Fx.png") imgA (by decide) (by decide)
    (Or.inl (by decide)) (by decide)

/-- In the chapter loop, the recorded starting page of the chapter at
position `i` equals the seed counter + 1 plus the rendered page counts
of the chapters processed before it. -/
theorem process_items_start (render : Str → Nat) (resolve : Str → Option Str)
    (styles : Str) (pn : Bool) :
    ∀ (items : List (Option EpubItem)) (cur : Int) (i : Nat)
      (hi : i < (process_items render resolve styles pn items cur).length),
      ((process_items render resolve styles pn items cur).get ⟨i, hi⟩).startPage =
        cur + 1 +
          (((process_items render resolve styles pn items cur).take i).map
            (fun t => (t.pageCount : Int))).sum
  | [], _, i, hi => absurd hi (by simp [process_items])
  | none :: rest, cur, i, hi =>
    process_items_start render resolve styles pn rest cur i hi
  | some it :: rest, cur, 0, hi => by
    simp [process_items, chapter_trace]
  | some it :: rest, cur, i + 1, hi => by
    have hi' : i < (process_items render resolve styles pn rest
        (cur + ((chapter_trace render resolve styles pn it cur).pageCount : Int))).length := by
      have h0 := hi
      simp only [process_items, List.length_cons] at h0
      omega
    have ih := process_items_start render resolve styles pn rest
      (cur + ((chapter_trace render resolve styles pn it cur).pageCount : Int)) i hi'
    simp only [process_items, List.get_cons_succ, List.take_succ_cons, List.map_cons,
      List.sum_cons]
    rw [ih]
    ring

/-- C1 amended: with the TOC enabled, the starting page assigned to the
chapter processed at position `i` equals (estimated TOC length +
configured TOC start page) — one more than the claimed baseline — plus
the sum of the rendered page counts of the chapters before it. -/
theorem chapter_start_page_amended (render : Str → Nat) (book : Book) (s : ConvSettings)
    (htoc : s.toc = true) (i : Nat) (hi : i < (traces_of render book s).length) :
    ((traces_of render book s).get ⟨i, hi⟩).startPage =
      ((toc_estimate render book s : Int) + (s.toc_start_page : Int)) +
        (((traces_of render book s).take i).map (fun t => (t.pageCount : Int))).sum := by
  have h := process_items_start render (resolver_of book)
    (styles_of (resolver_of book) book s.page_numbers) s.page_numbers
    (items_to_process book)
    ((toc_estimate render book s : Int) + (s.toc_start_page : Int) - 1) i hi
  unfold traces_of
  rw [h]
  ring

/-- Witness for `chapter_start_page_amended`: the first chapter of the
one-chapter book with a 2-page renderer starts at page
2 (estimate) + 1 (start page) + 0 = 3. -/
theorem chapter_start_page_amended_witness :
    0 < (traces_of (fun _ => 2) book1
      { page_numbers := false, toc := true, toc_numbers := false,
        toc_start_page := 1 }).length ∧
    ∀ hi : 0 < (traces_of (fun _ => 2) book1
      { page_numbers := false, toc := true, toc_numbers := false,
        toc_start_page := 1 }).length,
      ((traces_of (fun _ => 2) book1
        { page_numbers := false, toc := true, toc_numbers := false,
          toc_start_page := 1 }).get ⟨0, hi⟩).startPage =
        ((toc_estimate (fun _ => 2) book1
          { page_numbers := false, toc := true, toc_numbers := false,
            toc_start_page := 1 } : Int) + 1) +
          (((traces_of (fun _ => 2) book1
            { page_numbers := false, toc := true, toc_numbers := false,
              toc_start_page := 1 }).take 0).map (fun t => (t.pageCount : Int))).sum :=
  ⟨by decide, fun hi =>
    chapter_start_page_amended (fun _ => 2) book1
      { page_numbers := false, toc := true, toc_numbers := false, toc_start_page := 1 }
      rfl 0 hi⟩

/-- The settings used by the TOC-enabled concrete runs: no page
numbers, TOC on, no TOC numbers, start page 1. -/
def settingsToc1 : ConvSettings :=
  { page_numbers := false, toc := true, toc_numbers := false, toc_start_page := 1 }

/-- C1 counterexample: with a 2-page TOC estimate and start page 1, the
single chapter is assigned starting page 3, but the claimed formula
baseline + sum = (2 + 1 − 1) + 0 gives 2. -/
theorem chapter_start_page_counterexample :
    (convert_epub_to_pdf (fun _ => 2) book1 settingsToc1).tocEstimate = 2 ∧
    ((convert_epub_to_pdf (fun _ => 2) book1 settingsToc1).traces.map
      (fun t => (t.name, t.startPage))) = [(lit "ch1.xhtml", (3 : Int))] ∧
    ((3 : Int) ≠ 2 + 1 - 1 + 0) := by
  refine ⟨by decide, by decide, by decide⟩

/-- C6 claim: with the TOC enabled and a final TOC render whose page
count differs from the estimate, the run logs exactly the size-change
warning, still produces an output document, and performs exactly one
render per chapter plus the two TOC renders (estimate and final) — in
that order, with nothing re-rendered. -/
theorem toc_mismatch_warns_and_completes (render : Str → Nat) (book : Book)
    (s : ConvSettings) (htoc : s.toc = true)
    (hmis : render (real_toc_html render book s) ≠ toc_estimate render book s) :
    (convert_epub_to_pdf render book s).warnings =
      [tocWarningMsg (toc_estimate render book s)
        (render (real_toc_html render book s))] ∧
    (convert_epub_to_pdf render book s).output =
      some (render (real_toc_html render book s) +
        ((traces_of render book s).map (fun t => t.pageCount)).sum) ∧
    (convert_epub_to_pdf render book s).renderedHtmls =
      dummy_toc_html book s ::
        ((traces_of render book s).map (fun t => t.htmlStr) ++
          [real_toc_html render book s]) := by
  simp only [convert_epub_to_pdf, htoc, if_true, if_pos hmis]
  exact ⟨trivial, trivial, trivial⟩

/-- The length renderer used for the concrete TOC-drift run. -/
def lenRender : Str → Nat := fun l => l.length

/-- The settings of the concrete TOC-drift run: TOC with page numbers
in its entries. -/
def settingsTocNum : ConvSettings :=
  { page_numbers := false, toc := true, toc_numbers := true, toc_start_page := 1 }

set_option maxRecDepth 40000 in
/-- Witness for `toc_mismatch_warns_and_completes`: with the length
renderer, the final TOC (which now carries the chapter's page number)
is longer than the dry-run TOC, so the estimate differs. -/
theorem toc_mismatch_warns_and_completes_witness :
    lenRender (real_toc_html lenRender book1 settingsTocNum) ≠
      toc_estimate lenRender book1 settingsTocNum ∧
    ((convert_epub_to_pdf lenRender book1 settingsTocNum).warnings =
      [tocWarningMsg (toc_estimate lenRender book1 settingsTocNum)
        (lenRender (real_toc_html lenRender book1 settingsTocNum))] ∧
    (convert_epub_to_pdf lenRender book1 settingsTocNum).output =
      some (lenRender (real_toc_html lenRender book1 settingsTocNum) +
        ((traces_of lenRender book1 settingsTocNum).map (fun t => t.pageCount)).sum) ∧
    (convert_epub_to_pdf lenRender book1 settingsTocNum).renderedHtmls =
      dummy_toc_html book1 settingsTocNum ::
        ((traces_of lenRender book1 settingsTocNum).map (fun t => t.htmlStr) ++
          [real_toc_html lenRender book1 settingsTocNum])) :=
  ⟨by decide, toc_mismatch_warns_and_completes lenRender book1 settingsTocNum rfl (by decide)⟩

/-- C7 counterexample: a book with no document items, converted with
the TOC enabled, produces an output document (the TOC-only PDF, here 1
page) even though the chapter list is empty — no error is raised. -/
theorem empty_chapters_toc_only_output :
    (convert_epub_to_pdf (fun _ => 1) bookEmpty settingsToc1).traces = [] ∧
    (convert_epub_to_pdf (fun _ => 1) bookEmpty settingsToc1).output = some 1 := by
  refine ⟨by decide, by decide⟩

/-- C7 amended: with an empty chapter list, the run fails (the
`documents[0]` indexing raises and no output file is written) exactly
when the TOC is disabled; with the TOC enabled a TOC-only document is
written instead. -/
theorem empty_chapters_assembly (render : Str → Nat) (book : Book) (s : ConvSettings)
    (hempty : traces_of render book s = []) :
    (s.toc = false → (convert_epub_to_pdf render book s).output = none) ∧
    (s.toc = true → (convert_epub_to_pdf render book s).output =
      some (render (real_toc_html render book s))) := by
  constructor
  · intro hf
    simp [convert_epub_to_pdf, hf, hempty]
  · intro ht
    simp [convert_epub_to_pdf, ht, hempty]

/-- Witness for `empty_chapters_assembly`: the empty book with the TOC
disabled — the run produces no output. -/
theorem empty_chapters_assembly_witness :
    traces_of (fun _ => 1) bookEmpty
      { page_numbers := false, toc := false, toc_numbers := false,
        toc_start_page := 1 } = [] ∧
    (({ page_numbers := false, toc := false, toc_numbers := false,
        toc_start_page := 1 } : ConvSettings).toc = false →
      (convert_epub_to_pdf (fun _ => 1) bookEmpty
        { page_numbers := false, toc := false, toc_numbers := false,
          toc_start_page := 1 }).output = none) ∧
    (({ page_numbers := false, toc := false, toc_numbers := false,
        toc_start_page := 1 } : ConvSettings).toc = true →
      (convert_epub_to_pdf (fun _ => 1) bookEmpty
        { page_numbers := false, toc := false, toc_numbers := false,
          toc_start_page := 1 }).output =
        some ((fun _ => 1 : Str → Nat)
          (real_toc_html (fun _ => 1) bookEmpty
            { page_numbers := false, toc := false, toc_numbers := false,
              toc_start_page := 1 }))) :=
  ⟨by decide,
    (empty_chapters_assembly (fun _ => 1) bookEmpty _ (by decide)).1,
    (empty_chapters_assembly (fun _ => 1) bookEmpty _ (by decide)).2⟩
